import Mathlib

/-!
Verification of the mount/argument generation and workspace synchronization
subsystem of the mlcube repository (`mlcube/shell.py`), as a shallow
embedding in Lean 4.

Conventions of the embedding:
* Python strings are `String`; ordered Python dicts are association lists
  `List (key × value)` (insertion ordered, lookup finds the first binding).
* The host filesystem is a flat association list from path strings to nodes;
  a node is a regular file or a directory, each carrying an abstract content
  tag.  Hierarchy below a path is not modelled (claims under study only
  inspect whole paths).
* Fallible code returns `Except ShellError`; `sync_workspace` additionally
  records the filesystem mutations it performed before any error in an
  explicit action trace, because the claims quantify over partial effects.
* `os.path` helpers (`join`, `split`, `normpath`, `abspath`, `commonpath`)
  are translated from CPython's `posixpath` implementation.
-/

namespace MLCube

/-! ## Kernel-computable string primitives

The corresponding `String` library functions are implemented over byte
positions with well-founded recursion; these structurally recursive
versions over `List Char` have the same semantics and evaluate inside the
kernel, which the concrete witnesses below rely on. -/

/-- ASCII whitespace, as stripped by Python's `str.strip()`. -/
def pyIsSpace (c : Char) : Bool :=
  c == ' ' || c == '\t' || c == '\n' || c == '\r' || c == '\x0b' || c == '\x0c'

/-- Python `s.strip()`: drop leading and trailing whitespace. -/
def strTrim (s : String) : String :=
  String.mk (((s.data.dropWhile pyIsSpace).reverse.dropWhile pyIsSpace).reverse)

/-- Python `s.startswith(pre)`. -/
def strStartsWith (s pre : String) : Bool :=
  pre.data.isPrefixOf s.data

/-- Python `s.endswith('/')`. -/
def endsWithSlash (s : String) : Bool :=
  s.data.getLast? == some '/'

/-- Accumulator loop of `splitSlash`. -/
def splitSlashAux : List Char → List Char → List String
  | [], acc => [String.mk acc.reverse]
  | c :: rest, acc =>
      if c == '/' then String.mk acc.reverse :: splitSlashAux rest []
      else splitSlashAux rest (c :: acc)

/-- Python `s.split('/')` (all occurrences, empty pieces kept). -/
def splitSlash (s : String) : List String :=
  splitSlashAux s.data []

/-- Codepoint-lexicographic strict order on character lists (Python string
comparison). -/
def charListLt : List Char → List Char → Bool
  | [], [] => false
  | [], _ :: _ => true
  | _ :: _, [] => false
  | a :: as, b :: bs => if a < b then true else if a == b then charListLt as bs else false

/-! ## posixpath primitives -/

/-- `os.path.join(a, b)` for POSIX paths (two-argument form):
an absolute second component discards the first. -/
def pathJoin (a b : String) : String :=
  if strStartsWith b "/" then b
  else if a == "" || endsWithSlash a then a ++ b
  else a ++ "/" ++ b

/-- Drop trailing `'/'` characters from a character list. -/
def rstripSlash (cs : List Char) : List Char :=
  (cs.reverse.dropWhile (fun c => c == '/')).reverse

/-- `os.path.split(p)`: the pair `(head, tail)` with `tail` everything after
the final slash; `head` keeps its trailing slash only when it is all
slashes (as in CPython's `posixpath.split`). -/
def pathSplit (p : String) : String × String :=
  let cs := p.data
  let tail := (cs.reverse.takeWhile (fun c => c != '/')).reverse
  let head0 := cs.take (cs.length - tail.length)
  let head := if head0.any (fun c => c != '/') then rstripSlash head0 else head0
  (String.mk head, String.mk tail)

/-- The component-collapsing loop of `posixpath.normpath`. -/
def normpathComps (isAbs : Bool) (comps : List String) : List String :=
  comps.foldl (fun acc comp =>
    if comp == "" || comp == "." then acc
    else if comp != ".." || (!isAbs && acc.isEmpty) || acc.getLast? == some ".." then
      acc ++ [comp]
    else if !acc.isEmpty then acc.dropLast
    else acc) []

/-- `posixpath.normpath`. -/
def normpath (p : String) : String :=
  if p == "" then "."
  else
    let slashes : Nat :=
      if strStartsWith p "//" && !strStartsWith p "///" then 2
      else if strStartsWith p "/" then 1
      else 0
    let comps := normpathComps (slashes > 0) (splitSlash p)
    let out := String.mk (List.replicate slashes '/') ++ String.intercalate "/" comps
    if out == "" then "." else out

/-- `os.path.abspath`, with the working directory passed explicitly. -/
def absPath (cwd p : String) : String :=
  normpath (pathJoin cwd p)

/-- Path components as used by `posixpath.commonpath`: split on `'/'`,
dropping empty components and `"."`. -/
def pathComps (p : String) : List String :=
  (splitSlash p).filter (fun c => c != "" && c != ".")

/-- Lexicographic order on component lists (Python list comparison),
used by the `min`/`max` calls inside `posixpath.commonpath`. -/
def strListLe : List String → List String → Bool
  | [], _ => true
  | _ :: _, [] => false
  | a :: as, b :: bs =>
      if a == b then strListLe as bs else charListLt a.data b.data

/-- Longest common prefix of two component lists (the scanning loop of
`posixpath.commonpath`, applied to the `min`/`max` of the inputs). -/
def commonPrefixComps : List String → List String → List String
  | a :: as, b :: bs => if a == b then a :: commonPrefixComps as bs else []
  | _, _ => []

/-- `posixpath.commonpath([w])` (single-element form). -/
def commonpath1 (w : String) : String :=
  (if strStartsWith w "/" then "/" else "") ++
    String.intercalate "/" (pathComps w)

/-- `posixpath.commonpath([a, b])`.  The `ValueError` branch for mixing
absolute and relative paths is unreachable at the call sites modelled here
(both arguments are always absolute), so the prefix is taken from `a`. -/
def commonpath2 (a b : String) : String :=
  let sa := pathComps a
  let sb := pathComps b
  let s1 := if strListLe sa sb then sa else sb
  let s2 := if strListLe sa sb then sb else sa
  (if strStartsWith a "/" then "/" else "") ++
    String.intercalate "/" (commonPrefixComps s1 s2)

/-! ## Filesystem model -/

/-- A filesystem node: a regular file or a directory, with an abstract
content tag standing for its data. -/
inductive FSNode
  | file (content : Nat)
  | dir (content : Nat)
deriving DecidableEq, Repr

/-- Flat filesystem: path string to node, first binding wins. -/
abbrev FS := List (String × FSNode)

/-- `os.path.exists`. -/
def fsExists (fs : FS) (p : String) : Bool :=
  (fs.lookup p).isSome

/-- `os.path.isdir`. -/
def fsIsDir (fs : FS) (p : String) : Bool :=
  match fs.lookup p with
  | some (FSNode.dir _) => true
  | _ => false

/-- `os.path.isfile`. -/
def fsIsFile (fs : FS) (p : String) : Bool :=
  match fs.lookup p with
  | some (FSNode.file _) => true
  | _ => false

/-- `os.makedirs(p, exist_ok=True)` in the flat model: insert a directory
node if the path is absent (intermediate directories and the error on an
existing non-directory are outside the flat abstraction). -/
def fsMakedirs (p : String) (fs : FS) : FS :=
  if fsExists fs p then fs else (p, FSNode.dir 0) :: fs

/-! ## Configuration data model

Modelled from the spec: `ParameterType` and `IOType` live in
`mlcube/config.py`, which is not part of the sources under study; the spec
declares them as enums {UNKNOWN, FILE, DIRECTORY} and {INPUT, OUTPUT} with
membership validators.  In the typed embedding every enum value is valid,
so the validators are constantly true. -/

inductive ParameterType
  | unknown
  | file
  | directory
deriving DecidableEq, Repr

inductive IOType
  | input
  | output
deriving DecidableEq, Repr

/-- `ParameterType.is_valid`, constantly true on the typed enum. -/
def parameterTypeIsValid (_ : ParameterType) : Bool := true

/-- `IOType.is_valid`, constantly true on the typed enum. -/
def ioTypeIsValid (_ : IOType) : Bool := true

/-- A parameter declaration: `DictConfig(type, default)`. -/
structure ParamDef where
  type : ParameterType
  default : String
deriving DecidableEq, Repr

/-- `tasks[name].parameters`: ordered input and output parameter mappings. -/
structure TaskParams where
  inputs : List (String × ParamDef)
  outputs : List (String × ParamDef)
deriving DecidableEq, Repr

/-- One task of a cube. -/
structure TaskDef where
  parameters : TaskParams
deriving DecidableEq, Repr

/-- The `runtime` section of an MLCube configuration. -/
structure RuntimeCfg where
  workspace : String
  root : String
deriving DecidableEq, Repr

/-- The MLCube configuration (`DictConfig`) fields read by `shell.py`. -/
structure MLCubeCfg where
  runtime : RuntimeCfg
  workspace : String
  tasks : List (String × TaskDef)
deriving DecidableEq, Repr

/-- Errors raised by `shell.py` (Python exception classes). -/
inductive ShellError
  | configurationError (msg : String)
  | keyError (msg : String)
  | valueError (msg : String)
  | notImplementedError
  | runtimeError (msg : String)
deriving DecidableEq, Repr

instance exceptDecEq {ε α : Type} [DecidableEq ε] [DecidableEq α] :
    DecidableEq (Except ε α)
  | Except.error e, Except.error f =>
      if h : e = f then isTrue (by rw [h])
      else isFalse (by intro hc; cases hc; exact h rfl)
  | Except.error _, Except.ok _ => isFalse (by intro hc; cases hc)
  | Except.ok _, Except.error _ => isFalse (by intro hc; cases hc)
  | Except.ok a, Except.ok b =>
      if h : a = b then isTrue (by rw [h])
      else isFalse (by intro hc; cases hc; exact h rfl)

/-! ## Shell.to_cli_args -/

/-- `Shell.to_cli_args(args, sep, parent_arg)`.  Python's
`'' if not parent_arg else parent_arg + ' '` treats both `None` and the
empty string as "no parent flag". -/
def to_cli_args (args : List (String × String)) (sep : String)
    (parentArg : Option String) : String :=
  let pa := match parentArg with
    | none => ""
    | some s => if s == "" then "" else s ++ " "
  String.intercalate " " (args.map (fun kv => pa ++ kv.1 ++ sep ++ kv.2))

/-- Modelled from the spec: the CLI-args Formatter contract renders each
key/value pair as `{parent_flag }{key}{separator}{value}`, space-joined,
mapping order preserved; an absent (or empty, i.e. falsy) parent flag
contributes no prefix. -/
def cliArgsSpec (args : List (String × String)) (sep : String)
    (parentArg : Option String) : String :=
  String.intercalate " " (args.map (fun kv =>
    (match parentArg with
     | none => ""
     | some f => if f == "" then "" else f ++ " ") ++ kv.1 ++ sep ++ kv.2))

/-! ## Shell.generate_mounts_and_args -/

/-- State threaded through `_generate`: the host filesystem (mutated by
`os.makedirs`), the `mounts` dict and the `args` list. -/
structure GenState where
  fs : FS
  mounts : List (String × String)
  args : List String
deriving DecidableEq, Repr

/-- `mounts[_host_path] = mounts.get(_host_path, v)`: insert-if-absent,
appending at the end (Python dicts preserve insertion order). -/
def mountsInsert (mounts : List (String × String)) (k v : String) :
    List (String × String) :=
  match mounts.lookup k with
  | some _ => mounts
  | none => mounts ++ [(k, v)]

/-- The type-resolution block of `_generate` (`shell.py` lines 81-93):
UNKNOWN outputs are a configuration error; UNKNOWN inputs are resolved by
filesystem inspection (directory first, then regular file), and a missing
path is a configuration error.  Declared FILE/DIRECTORY types pass
through. -/
def resolveParamType (fs : FS) (task pname : String) (iot : IOType)
    (ptype : ParameterType) (hostPath : String) :
    Except ShellError ParameterType :=
  match ptype with
  | ParameterType.unknown =>
    match iot with
    | IOType.output =>
        Except.error (ShellError.configurationError
          ("Invalid task: task=" ++ task ++ ", param=" ++ pname ++
           ", type=unknown. Type is unknown."))
    | IOType.input =>
        if fsIsDir fs hostPath then Except.ok ParameterType.directory
        else if fsIsFile fs hostPath then Except.ok ParameterType.file
        else Except.error (ShellError.configurationError
          ("Invalid task: task=" ++ task ++ ", param=" ++ pname ++
           ", type=unknown. Type is unknown and unable to identify it (" ++
           hostPath ++ ")."))
  | t => Except.ok t

/-- One iteration of the `_generate` loop (`shell.py` lines 75-109) on a
single `(name, declaration)` pair. -/
def processParam (workspace task : String) (iot : IOType) (st : GenState)
    (p : String × ParamDef) : Except ShellError GenState :=
  if parameterTypeIsValid p.2.type = false then
    Except.error (ShellError.configurationError
      ("Invalid task: task=" ++ task ++ ", param=" ++ p.1 ++
       ". Type is invalid."))
  else
    let hostPath := pathJoin workspace p.2.default
    match resolveParamType st.fs task p.1 iot p.2.type hostPath with
    | Except.error e => Except.error e
    | Except.ok ParameterType.directory =>
        let fs' := fsMakedirs hostPath st.fs
        let mounts' := mountsInsert st.mounts hostPath
          ("/mlcube_io" ++ toString st.mounts.length ++ "/" ++
           (pathSplit hostPath).2)
        let mval := (mounts'.lookup hostPath).getD ""
        Except.ok { fs := fs', mounts := mounts',
                    args := st.args ++ ["--" ++ p.1 ++ "=" ++ mval] }
    | Except.ok ParameterType.file =>
        let dirPath := (pathSplit hostPath).1
        let fileName := (pathSplit hostPath).2
        let fs' := fsMakedirs dirPath st.fs
        let mounts' := mountsInsert st.mounts dirPath
          ("/mlcube_io" ++ toString st.mounts.length ++ "/" ++ dirPath)
        let mval := (mounts'.lookup dirPath).getD ""
        Except.ok { fs := fs', mounts := mounts',
                    args := st.args ++
                      ["--" ++ p.1 ++ "=" ++ mval ++ "/" ++ fileName] }
    | Except.ok ParameterType.unknown => Except.ok st

/-- `_generate(_params, _io)`: validate the IO direction, then fold the
loop body over the parameter mapping. -/
def generateGroup (workspace task : String) (iot : IOType)
    (params : List (String × ParamDef)) (st : GenState) :
    Except ShellError GenState :=
  if ioTypeIsValid iot = false then
    Except.error (ShellError.configurationError "Invalid IO")
  else params.foldlM (processParam workspace task iot) st

/-- `Shell.generate_mounts_and_args(mlcube, task)`: the task lookup
(`KeyError` on a missing task), then the input group followed by the
output group, starting from `mounts = {}`, `args = [task]`.  Returns the
mounts table, the argument list, and the updated filesystem. -/
def generate_mounts_and_args (fs : FS) (mlcube : MLCubeCfg) (task : String) :
    Except ShellError (List (String × String) × List String × FS) :=
  match mlcube.tasks.lookup task with
  | none => Except.error (ShellError.keyError task)
  | some tdef =>
    let st0 : GenState := { fs := fs, mounts := [], args := [task] }
    match generateGroup mlcube.runtime.workspace task IOType.input
        tdef.parameters.inputs st0 with
    | Except.error e => Except.error e
    | Except.ok st1 =>
      match generateGroup mlcube.runtime.workspace task IOType.output
          tdef.parameters.outputs st1 with
      | Except.error e => Except.error e
      | Except.ok st2 => Except.ok (st2.mounts, st2.args, st2.fs)

/-! ## Shell.sync_workspace -/

/-- A filesystem mutation performed by `sync_workspace`, recorded in the
order it happened: `os.makedirs(..., exist_ok=True)`, `shutil.copy`, or
`dir_util.copy_tree`. -/
inductive SyncAction
  | mkdirs (path : String)
  | copyFile (src dst : String)
  | copyTree (src dst : String)
deriving DecidableEq, Repr

/-- The destination of a copy action (`none` for directory creation). -/
def copyDst : SyncAction → Option String
  | SyncAction.mkdirs _ => none
  | SyncAction.copyFile _ dst => some dst
  | SyncAction.copyTree _ dst => some dst

/-- Observable outcome of one `sync_workspace` call: the filesystem after
the call, the trace of mutations performed before any error, the caller's
configuration object after the call (the code may in principle mutate it
in place; mutations of the internal deep copy do not show up here), and
the raised exception, if any. -/
structure SyncState where
  fs : FS
  actions : List SyncAction
  targetCfg : MLCubeCfg
  error : Option ShellError
deriving DecidableEq, Repr

/-- `_storage_not_supported(_uri)` (`shell.py` lines 137-142): strip the
string, raise `NotImplementedError` on a `storage:` prefix. -/
def storageNotSupported (uri : String) : Except ShellError String :=
  let u := strTrim uri
  if strStartsWith u "storage:" then
    Except.error ShellError.notImplementedError
  else Except.ok u

/-- `_is_inside_workspace` (`shell.py` lines 144-146). -/
def isInsideWorkspace (workspace artifact : String) : Bool :=
  commonpath1 workspace == commonpath2 workspace artifact

/-- `_is_ok` (`shell.py` lines 148-162); the `_parameter`/`_kind`
arguments only feed log messages and are dropped. -/
def isOkSync (fs : FS) (workspace artifact : String) (mustExist : Bool) :
    Bool :=
  if !isInsideWorkspace workspace artifact then false
  else if mustExist && !fsExists fs artifact then false
  else if !mustExist && fsExists fs artifact then false
  else true

/-- Inner loop of `_is_task_output` over one task's output parameters:
each default is passed through `_storage_not_supported` (which can raise)
and compared, by string equality, against the candidate artifact. -/
def isTaskOutputParams (targetWorkspace targetArtifact : String) :
    List (String × ParamDef) → Except ShellError Bool
  | [] => Except.ok false
  | (_, pd) :: rest =>
    match storageNotSupported pd.default with
    | Except.error e => Except.error e
    | Except.ok d =>
      if targetArtifact == pathJoin targetWorkspace d then Except.ok true
      else isTaskOutputParams targetWorkspace targetArtifact rest

/-- Outer loop of `_is_task_output` over all tasks of the cube. -/
def isTaskOutputTasks (targetWorkspace targetArtifact : String) :
    List (String × TaskDef) → Except ShellError Bool
  | [] => Except.ok false
  | (_, td) :: rest =>
    match isTaskOutputParams targetWorkspace targetArtifact
        td.parameters.outputs with
    | Except.error e => Except.error e
    | Except.ok true => Except.ok true
    | Except.ok false => isTaskOutputTasks targetWorkspace targetArtifact rest

/-- `_is_task_output(_target_artifact, _input_parameter)` (`shell.py`
lines 164-177). -/
def isTaskOutput (cube : MLCubeCfg) (targetWorkspace targetArtifact : String) :
    Except ShellError Bool :=
  isTaskOutputTasks targetWorkspace targetArtifact cube.tasks

/-- One iteration of the per-input loop of `sync_workspace` (`shell.py`
lines 202-228).  A state that already carries an error is passed through
unchanged (the Python loop has terminated at that point). -/
def syncInput (sourceWorkspace targetWorkspace : String) (cube : MLCubeCfg)
    (st : SyncState) (p : String × ParamDef) : SyncState :=
  if st.error.isSome then st
  else
    -- lines 209 and 213 both apply `_storage_not_supported` to the same
    -- `input_def.default`; the stripped value is shared here.
    match storageNotSupported p.2.default with
    | Except.error e => { st with error := some e }
    | Except.ok d =>
      let sourceUri := pathJoin sourceWorkspace d
      if !isOkSync st.fs sourceWorkspace sourceUri true then st
      else
        let targetUri := pathJoin targetWorkspace d
        if !isOkSync st.fs targetWorkspace targetUri false then st
        else
          match isTaskOutput cube targetWorkspace targetUri with
          | Except.error e => { st with error := some e }
          | Except.ok true => st
          | Except.ok false =>
            if fsIsFile st.fs sourceUri then
              let parentDir := (pathSplit targetUri).1
              let fs1 := fsMakedirs parentDir st.fs
              let fs2 := (match fs1.lookup sourceUri with
                | some n => (targetUri, n) :: fs1
                | none => fs1)
              { st with
                fs := fs2,
                actions := st.actions ++
                  [SyncAction.mkdirs parentDir,
                   SyncAction.copyFile sourceUri targetUri] }
            else if fsIsDir st.fs sourceUri then
              let fs2 := (match st.fs.lookup sourceUri with
                | some n => (targetUri, n) :: st.fs
                | none => st.fs)
              { st with
                fs := fs2,
                actions := st.actions ++
                  [SyncAction.copyTree sourceUri targetUri] }
            else
              { st with error := some (ShellError.runtimeError
                  ("Unknown artifact type (" ++ sourceUri ++ ")")) }

/-- `Shell.sync_workspace(target_mlcube, task)` (`shell.py` lines
128-228), with the working directory (for `os.path.abspath`) and the
filesystem passed explicitly.  `os.path.samefile` on the two workspace
directories is modelled as path-string equality (both sides are already
`abspath`-normalized; links are outside the model). -/
def sync_workspace (cwd : String) (fs : FS) (targetMlcube : MLCubeCfg)
    (task : String) : SyncState :=
  match storageNotSupported targetMlcube.runtime.workspace with
  | Except.error e =>
      { fs := fs, actions := [], targetCfg := targetMlcube, error := some e }
  | Except.ok w =>
    let targetWorkspace := absPath cwd w
    let fs1 := fsMakedirs targetWorkspace fs
    let acts0 := [SyncAction.mkdirs targetWorkspace]
    let sourceWorkspace :=
      absPath cwd (pathJoin targetMlcube.runtime.root "workspace")
    if !fsExists fs1 sourceWorkspace then
      { fs := fs1, actions := acts0, targetCfg := targetMlcube, error := none }
    else if targetWorkspace == sourceWorkspace then
      { fs := fs1, actions := acts0, targetCfg := targetMlcube, error := none }
    else
      match targetMlcube.tasks.lookup task with
      | none =>
          { fs := fs1, actions := acts0, targetCfg := targetMlcube,
            error := some (ShellError.valueError
              ("Task does not exist: " ++ task)) }
      | some tdef =>
        -- `source_mlcube`: deep copy of the configuration with both
        -- workspace fields redirected at the internal workspace (lines
        -- 195-199).  The copy is not read afterwards; only its creation is
        -- kept, to make explicit that the caller's object is untouched.
        let _sourceMlcube : MLCubeCfg :=
          { targetMlcube with
            runtime := { targetMlcube.runtime with workspace := sourceWorkspace },
            workspace := sourceWorkspace }
        let st0 : SyncState :=
          { fs := fs1, actions := acts0, targetCfg := targetMlcube,
            error := none }
        tdef.parameters.inputs.foldl
          (syncInput sourceWorkspace targetWorkspace targetMlcube) st0

/-! ## Specification-side predicates and concrete example configurations -/

/-- Every entry of the mount table, counting from position `n`, carries the
container prefix of its own slot index: the entry at position `i` has a
container path of the form `/mlcube_io{n+i}/...`. -/
def slottedFrom : Nat → List (String × String) → Prop
  | _, [] => True
  | n, kv :: rest =>
      (∃ r, kv.2 = "/mlcube_io" ++ toString n ++ "/" ++ r) ∧
        slottedFrom (n + 1) rest

/-- The round-trip example of the spec: a first DIRECTORY parameter with
default `data/train` and a FILE parameter with default
`config/params.yaml`, in workspace `/ws`. -/
def cubeRoundTrip : MLCubeCfg :=
  { runtime := { workspace := "/ws", root := "/r" }, workspace := "/ws",
    tasks := [("task", { parameters :=
      { inputs :=
          [("input_data",
            { type := ParameterType.directory, default := "data/train" }),
           ("cfg",
            { type := ParameterType.file, default := "config/params.yaml" })],
        outputs := [] } })] }

/-- Witness task for the mount/argument generator: two directory inputs
sharing one host path and a file output inside the same directory. -/
def cubeWTask : TaskDef :=
  { parameters :=
      { inputs :=
          [("i", { type := ParameterType.directory, default := "d" }),
           ("j", { type := ParameterType.directory, default := "d" })],
        outputs :=
          [("o", { type := ParameterType.file, default := "d/out.txt" })] } }

/-- Witness cube packaging `cubeWTask` under the name `t`. -/
def cubeW : MLCubeCfg :=
  { runtime := { workspace := "/w", root := "/r" }, workspace := "/w",
    tasks := [("t", cubeWTask)] }

/-- Cube whose second input artifact path carries the `storage:` prefix;
the first input is an ordinary file present in the source workspace. -/
def cubeC7 : MLCubeCfg :=
  { runtime := { workspace := "/tw", root := "/cube" }, workspace := "/tw",
    tasks := [("t", { parameters :=
      { inputs :=
          [("a", { type := ParameterType.file, default := "a.txt" }),
           ("b", { type := ParameterType.file, default := "storage:x" })],
        outputs := [] } })] }

/-- Filesystem for `cubeC7`: the source workspace exists and holds
`a.txt`; the target workspace does not exist yet. -/
def fsC7 : FS :=
  [("/cube/workspace", FSNode.dir 0), ("/cube/workspace/a.txt", FSNode.file 7)]

/-- Cube whose target workspace path itself carries the `storage:`
prefix. -/
def cubeStorage : MLCubeCfg :=
  { runtime := { workspace := "storage:abc", root := "/cube" },
    workspace := "storage:abc",
    tasks := [("t", { parameters := { inputs := [], outputs := [] } })] }

/-- Cube declaring only a task named `a` (for the missing-task witness). -/
def cubeC8 : MLCubeCfg :=
  { runtime := { workspace := "/tw", root := "/cube" }, workspace := "/tw",
    tasks := [("a", { parameters := { inputs := [], outputs := [] } })] }

/-- Cube whose input `x` resolves, in the target workspace, to the same
path as its own declared output `o`. -/
def cubeC4 : MLCubeCfg :=
  { runtime := { workspace := "/tw", root := "/cube" }, workspace := "/tw",
    tasks := [("t", { parameters :=
      { inputs :=
          [("x", { type := ParameterType.file, default := "model.bin" })],
        outputs :=
          [("o", { type := ParameterType.file, default := "model.bin" })] } })] }

/-- Filesystem for `cubeC4`: the artifact exists in the source workspace
and is absent from the target workspace. -/
def fsC4 : FS :=
  [("/cube/workspace", FSNode.dir 0),
   ("/cube/workspace/model.bin", FSNode.file 3)]

/-- Cube with a single ordinary file input (for the no-overwrite witness). -/
def cubeC5 : MLCubeCfg :=
  { runtime := { workspace := "/tw", root := "/cube" }, workspace := "/tw",
    tasks := [("t", { parameters :=
      { inputs :=
          [("x", { type := ParameterType.file, default := "d.txt" })],
        outputs := [] } })] }

/-- Filesystem for `cubeC5`: the artifact exists both in the source
workspace and at the target path. -/
def fsC5 : FS :=
  [("/cube/workspace", FSNode.dir 0), ("/cube/workspace/d.txt", FSNode.file 3),
   ("/tw/d.txt", FSNode.file 9)]

/-! ## General helper lemmas -/

theorem lookup_cons_eq {β : Type} (k a : String) (v : β) (l : List (String × β)) :
    List.lookup a ((k, v) :: l) = if a == k then some v else List.lookup a l := by
  cases h : a == k <;> simp [List.lookup, h]

theorem lookup_append_left {β : Type} {l₁ : List (String × β)}
    (l₂ : List (String × β)) {k : String} {v : β}
    (h : l₁.lookup k = some v) : (l₁ ++ l₂).lookup k = some v := by
  induction l₁ with
  | nil => simp [List.lookup] at h
  | cons hd tl ih =>
    rcases hd with ⟨a, b⟩
    rw [lookup_cons_eq] at h
    rw [List.cons_append, lookup_cons_eq]
    by_cases hk : (k == a) = true
    · rw [if_pos hk] at h ⊢; exact h
    · rw [if_neg hk] at h ⊢; exact ih h

theorem lookup_append_right {β : Type} {l₁ : List (String × β)}
    (l₂ : List (String × β)) {k : String}
    (h : l₁.lookup k = none) : (l₁ ++ l₂).lookup k = l₂.lookup k := by
  induction l₁ with
  | nil => simp
  | cons hd tl ih =>
    rcases hd with ⟨a, b⟩
    rw [lookup_cons_eq] at h
    rw [List.cons_append, lookup_cons_eq]
    by_cases hk : (k == a) = true
    · rw [if_pos hk] at h; exact absurd h (by simp)
    · rw [if_neg hk] at h ⊢; exact ih h

theorem lookup_none_not_mem_keys {β : Type} {l : List (String × β)} {k : String}
    (h : l.lookup k = none) : k ∉ l.map Prod.fst := by
  induction l with
  | nil => simp
  | cons hd tl ih =>
    rcases hd with ⟨a, b⟩
    rw [lookup_cons_eq] at h
    by_cases hk : (k == a) = true
    · rw [if_pos hk] at h; exact absurd h (by simp)
    · rw [if_neg hk] at h
      have hka : k ≠ a := by
        intro he; exact absurd (by simp [he] : (k == a) = true) (by simp [hk])
      simp only [List.map_cons, List.mem_cons]
      intro hmem
      rcases hmem with he | hm
      · exact hka he
      · exact ih h hm

theorem str_append_empty (s : String) : s ++ "" = s :=
  String.append_empty s

theorem str_append_assoc (a b c : String) : a ++ b ++ c = a ++ (b ++ c) :=
  String.append_assoc a b c

theorem not_isSome_none {α : Type} {o : Option α} (h : ¬ o.isSome = true) :
    o = none := by
  cases o with
  | none => rfl
  | some a => simp at h

theorem lookup_cons_ne {β : Type} {fs : List (String × β)} {q t : String}
    (n : β) (h : q ≠ t) : List.lookup q ((t, n) :: fs) = List.lookup q fs := by
  rw [lookup_cons_eq, if_neg]
  simp [h]

theorem fsMakedirs_lookup_pres {fs : FS} {q : String} (d : String)
    (h : fs.lookup q ≠ none) :
    (fsMakedirs d fs).lookup q = fs.lookup q := by
  unfold fsMakedirs
  by_cases he : fsExists fs d = true
  · rw [if_pos he]
  · rw [if_neg he]
    have hd : fs.lookup d = none := not_isSome_none he
    have hq : q ≠ d := by
      intro hqe; rw [hqe] at h; exact h hd
    exact lookup_cons_ne _ hq

theorem storageNotSupported_ok {uri u : String}
    (h : storageNotSupported uri = Except.ok u) : u = strTrim uri := by
  unfold storageNotSupported at h
  by_cases hs : strStartsWith (strTrim uri) "storage:" = true
  · rw [if_pos hs] at h; cases h
  · rw [if_neg hs] at h; cases h; rfl

theorem storageNotSupported_error {uri : String}
    (h : strStartsWith (strTrim uri) "storage:" = true) :
    storageNotSupported uri = Except.error ShellError.notImplementedError := by
  unfold storageNotSupported
  rw [if_pos h]

theorem isOkSync_target_absent {fs : FS} {w a : String}
    (h : isOkSync fs w a false = true) : fs.lookup a = none := by
  unfold isOkSync at h
  by_cases h1 : (!isInsideWorkspace w a) = true
  · rw [if_pos h1] at h; cases h
  · rw [if_neg h1] at h
    simp only [Bool.false_and, Bool.not_false, Bool.true_and, if_false] at h
    by_cases h2 : fsExists fs a = true
    · rw [if_pos h2] at h; cases h
    · exact not_isSome_none h2

/-- Exhaustive characterization of one step of the `sync_workspace` input
loop: either the state is unchanged, or only an error is recorded, or a
copy happened — and then the target was checked to be absent, the target
path was checked not to be a task output, and the copied node is the
source node. -/
theorem syncInput_cases (sw tw : String) (cube : MLCubeCfg)
    (st : SyncState) (p : String × ParamDef) :
    syncInput sw tw cube st p = st ∨
    (∃ e, syncInput sw tw cube st p = { st with error := some e }) ∨
    (∃ d n,
      storageNotSupported p.2.default = Except.ok d ∧
      isOkSync st.fs tw (pathJoin tw d) false = true ∧
      isTaskOutput cube tw (pathJoin tw d) = Except.ok false ∧
      st.fs.lookup (pathJoin sw d) = some n ∧
      (syncInput sw tw cube st p = { st with
          fs := (pathJoin tw d, n) ::
            fsMakedirs (pathSplit (pathJoin tw d)).1 st.fs,
          actions := st.actions ++
            [SyncAction.mkdirs (pathSplit (pathJoin tw d)).1,
             SyncAction.copyFile (pathJoin sw d) (pathJoin tw d)] } ∨
       syncInput sw tw cube st p = { st with
          fs := (pathJoin tw d, n) :: st.fs,
          actions := st.actions ++
            [SyncAction.copyTree (pathJoin sw d) (pathJoin tw d)] })) := by
  unfold syncInput
  by_cases he : st.error.isSome = true
  · rw [if_pos he]; exact Or.inl rfl
  rw [if_neg he]
  cases hs : storageNotSupported p.2.default with
  | error e => exact Or.inr (Or.inl ⟨e, rfl⟩)
  | ok d =>
    dsimp only
    by_cases h1 : (!isOkSync st.fs sw (pathJoin sw d) true) = true
    · rw [if_pos h1]; exact Or.inl rfl
    rw [if_neg h1]
    by_cases h2 : (!isOkSync st.fs tw (pathJoin tw d) false) = true
    · rw [if_pos h2]; exact Or.inl rfl
    rw [if_neg h2]
    have h2' : isOkSync st.fs tw (pathJoin tw d) false = true := by
      simpa using h2
    cases ht : isTaskOutput cube tw (pathJoin tw d) with
    | error e => exact Or.inr (Or.inl ⟨e, rfl⟩)
    | ok b =>
      cases b with
      | true => exact Or.inl rfl
      | false =>
        by_cases hf : fsIsFile st.fs (pathJoin sw d) = true
        · rw [if_pos hf]
          obtain ⟨c, hc⟩ :
              ∃ c, st.fs.lookup (pathJoin sw d) = some (FSNode.file c) := by
            unfold fsIsFile at hf
            cases hl : st.fs.lookup (pathJoin sw d) with
            | none => rw [hl] at hf; simp at hf
            | some nn =>
              cases nn with
              | file c => exact ⟨c, rfl⟩
              | dir c => rw [hl] at hf; simp at hf
          have hps : (fsMakedirs (pathSplit (pathJoin tw d)).1 st.fs).lookup
              (pathJoin sw d) = some (FSNode.file c) := by
            rw [fsMakedirs_lookup_pres _ (by rw [hc]; intro hx; cases hx)]
            exact hc
          refine Or.inr (Or.inr ⟨d, FSNode.file c, rfl, h2', ht, hc, Or.inl ?_⟩)
          dsimp only
          rw [hps]
        · rw [if_neg hf]
          by_cases hd : fsIsDir st.fs (pathJoin sw d) = true
          · rw [if_pos hd]
            obtain ⟨c, hc⟩ :
                ∃ c, st.fs.lookup (pathJoin sw d) = some (FSNode.dir c) := by
              unfold fsIsDir at hd
              cases hl : st.fs.lookup (pathJoin sw d) with
              | none => rw [hl] at hd; simp at hd
              | some nn =>
                cases nn with
                | file c => rw [hl] at hd; simp at hd
                | dir c => exact ⟨c, rfl⟩
            refine Or.inr (Or.inr ⟨d, FSNode.dir c, rfl, h2', ht, hc, Or.inr ?_⟩)
            dsimp only
            rw [hc]
          · rw [if_neg hd]
            exact Or.inr (Or.inl ⟨_, rfl⟩)

/-- One input-loop step preserves the frame invariant: paths present in
the initial filesystem keep their content, and every copy destination
recorded so far was absent from the initial filesystem. -/
theorem syncInput_frame (fs0 : FS) (sw tw : String) (cube : MLCubeCfg)
    (st : SyncState) (p : String × ParamDef)
    (hfs : ∀ q, (fs0.lookup q).isSome = true → st.fs.lookup q = fs0.lookup q)
    (hacts : ∀ a ∈ st.actions, ∀ q, copyDst a = some q → fs0.lookup q = none) :
    (∀ q, (fs0.lookup q).isSome = true →
        (syncInput sw tw cube st p).fs.lookup q = fs0.lookup q) ∧
    (∀ a ∈ (syncInput sw tw cube st p).actions, ∀ q,
        copyDst a = some q → fs0.lookup q = none) := by
  rcases syncInput_cases sw tw cube st p with hA | ⟨e, hB⟩ | ⟨d, n, -, hok, -, -, hC⟩
  · rw [hA]; exact ⟨hfs, hacts⟩
  · rw [hB]; exact ⟨hfs, hacts⟩
  · have htgt : st.fs.lookup (pathJoin tw d) = none := isOkSync_target_absent hok
    have hfs0tgt : fs0.lookup (pathJoin tw d) = none := by
      cases ho : fs0.lookup (pathJoin tw d) with
      | none => rfl
      | some v =>
        have hv := hfs (pathJoin tw d) (by rw [ho]; rfl)
        rw [htgt, ho] at hv
        cases hv
    have hfspart : ∀ (base : FS), (∀ q, (fs0.lookup q).isSome = true →
        base.lookup q = fs0.lookup q) →
        ∀ q, (fs0.lookup q).isSome = true →
        ((pathJoin tw d, n) :: base).lookup q = fs0.lookup q := by
      intro base hbase q hq
      have hqne : q ≠ pathJoin tw d := by
        intro hqe
        rw [hqe, hfs0tgt] at hq
        cases hq
      rw [lookup_cons_ne _ hqne]
      exact hbase q hq
    have hmkbase : ∀ q, (fs0.lookup q).isSome = true →
        (fsMakedirs (pathSplit (pathJoin tw d)).1 st.fs).lookup q =
          fs0.lookup q := by
      intro q hq
      rw [fsMakedirs_lookup_pres]
      · exact hfs q hq
      · rw [hfs q hq]
        intro hx
        rw [hx] at hq
        cases hq
    rcases hC with hC | hC
    · rw [hC]
      refine ⟨hfspart _ hmkbase, ?_⟩
      intro a ha q hq
      rcases List.mem_append.mp ha with ha | ha
      · exact hacts a ha q hq
      · rcases ha with _ | ⟨_, ha⟩
        · cases hq
        · rcases ha with _ | ⟨_, ha⟩
          · cases hq
            exact hfs0tgt
          · cases ha
    · rw [hC]
      refine ⟨hfspart _ hfs, ?_⟩
      intro a ha q hq
      rcases List.mem_append.mp ha with ha | ha
      · exact hacts a ha q hq
      · rcases ha with _ | ⟨_, ha⟩
        · cases hq
          exact hfs0tgt
        · cases ha

theorem syncFold_frame (fs0 : FS) (sw tw : String) (cube : MLCubeCfg) :
    ∀ (l : List (String × ParamDef)) (st : SyncState),
      (∀ q, (fs0.lookup q).isSome = true → st.fs.lookup q = fs0.lookup q) →
      (∀ a ∈ st.actions, ∀ q, copyDst a = some q → fs0.lookup q = none) →
      (∀ q, (fs0.lookup q).isSome = true →
          (l.foldl (syncInput sw tw cube) st).fs.lookup q = fs0.lookup q) ∧
      (∀ a ∈ (l.foldl (syncInput sw tw cube) st).actions, ∀ q,
          copyDst a = some q → fs0.lookup q = none)
  | [], _, hfs, hacts => ⟨hfs, hacts⟩
  | p :: rest, st, hfs, hacts => by
      rw [List.foldl_cons]
      have h := syncInput_frame fs0 sw tw cube st p hfs hacts
      exact syncFold_frame fs0 sw tw cube rest _ h.1 h.2

/-- Whole-call frame property of `sync_workspace`: paths present before
the call keep their content, and every recorded copy destination was
absent beforehand. -/
theorem sync_workspace_frame (cwd : String) (fs : FS) (cube : MLCubeCfg)
    (task : String) :
    (∀ q, (fs.lookup q).isSome = true →
        (sync_workspace cwd fs cube task).fs.lookup q = fs.lookup q) ∧
    (∀ a ∈ (sync_workspace cwd fs cube task).actions, ∀ q,
        copyDst a = some q → fs.lookup q = none) := by
  unfold sync_workspace
  cases hs : storageNotSupported cube.runtime.workspace with
  | error e =>
    refine ⟨fun q _ => rfl, ?_⟩
    intro a ha
    simp at ha
  | ok w =>
    dsimp only
    have hmk : ∀ q, (fs.lookup q).isSome = true →
        (fsMakedirs (absPath cwd w) fs).lookup q = fs.lookup q := by
      intro q hq
      rw [fsMakedirs_lookup_pres]
      intro hx
      rw [hx] at hq
      cases hq
    have hac : ∀ a ∈ [SyncAction.mkdirs (absPath cwd w)], ∀ q,
        copyDst a = some q → fs.lookup q = none := by
      intro a ha q hq
      rcases ha with _ | ⟨_, ha⟩
      · cases hq
      · cases ha
    by_cases h1 : (!fsExists (fsMakedirs (absPath cwd w) fs)
        (absPath cwd (pathJoin cube.runtime.root "workspace"))) = true
    · rw [if_pos h1]; exact ⟨hmk, hac⟩
    rw [if_neg h1]
    by_cases h2 : (absPath cwd w ==
        absPath cwd (pathJoin cube.runtime.root "workspace")) = true
    · rw [if_pos h2]; exact ⟨hmk, hac⟩
    rw [if_neg h2]
    cases hl : cube.tasks.lookup task with
    | none => exact ⟨hmk, hac⟩
    | some tdef =>
      dsimp only
      exact syncFold_frame fs _ _ cube _ _ hmk hac

/-! ## Lemmas on the mount/argument generator -/

theorem resolveParamType_ne_unknown {fs : FS} {task pname : String}
    {iot : IOType} {ptype t : ParameterType} {hostPath : String}
    (h : resolveParamType fs task pname iot ptype hostPath = Except.ok t) :
    t ≠ ParameterType.unknown := by
  unfold resolveParamType at h
  cases ptype with
  | unknown =>
    cases iot with
    | output => cases h
    | input =>
      by_cases hd : fsIsDir fs hostPath = true
      · rw [if_pos hd] at h; cases h; intro hc; cases hc
      · rw [if_neg hd] at h
        by_cases hf : fsIsFile fs hostPath = true
        · rw [if_pos hf] at h; cases h; intro hc; cases hc
        · rw [if_neg hf] at h; cases h
  | file => cases h; intro hc; cases hc
  | directory => cases h; intro hc; cases hc

theorem keys_nodup_append {m : List (String × String)} {k v : String}
    (hm : m.lookup k = none) (h : (m.map Prod.fst).Nodup) :
    ((m ++ [(k, v)]).map Prod.fst).Nodup := by
  rw [List.map_append, List.nodup_append]
  refine ⟨h, by simp, ?_⟩
  intro x hx hx2
  simp at hx2
  rw [hx2] at hx
  exact lookup_none_not_mem_keys hm hx

theorem slottedFrom_append (k r : String) :
    ∀ (n : Nat) (l : List (String × String)), slottedFrom n l →
      slottedFrom n
        (l ++ [(k, "/mlcube_io" ++ toString (n + l.length) ++ "/" ++ r)])
  | n, [], _ => by
      refine ⟨⟨r, ?_⟩, trivial⟩
      simp
  | n, kv :: rest, h => by
      have harith : n + 1 + rest.length = n + (kv :: rest).length := by
        simp [List.length_cons]
        omega
      refine ⟨h.1, ?_⟩
      have hrec := slottedFrom_append k r (n + 1) rest h.2
      rw [harith] at hrec
      exact hrec

/-- Shape of one successful `_generate` loop iteration: exactly one
argument of the form `--{name}={container}{suffix}` is appended, the
container value is bound in the updated mount table, and the mount table
is either unchanged or extended at the end with a fresh key whose slot
index is the table's size at insertion time. -/
theorem processParam_ok_shape (ws task : String) (iot : IOType)
    (st st' : GenState) (p : String × ParamDef)
    (h : processParam ws task iot st p = Except.ok st') :
    ∃ hp mv suf,
      st'.mounts.lookup hp = some mv ∧
      st'.args = st.args ++ ["--" ++ p.1 ++ "=" ++ mv ++ suf] ∧
      (st'.mounts = st.mounts ∨
        (st.mounts.lookup hp = none ∧
         st'.mounts = st.mounts ++ [(hp, mv)] ∧
         ∃ r, mv = "/mlcube_io" ++ toString st.mounts.length ++ "/" ++ r)) := by
  unfold processParam at h
  rw [if_neg (by simp [parameterTypeIsValid])] at h
  dsimp only at h
  cases hr : resolveParamType st.fs task p.1 iot p.2.type
      (pathJoin ws p.2.default) with
  | error e => rw [hr] at h; cases h
  | ok t =>
    rw [hr] at h
    cases t with
    | unknown => exact absurd rfl (resolveParamType_ne_unknown hr)
    | directory =>
      dsimp only at h
      cases hm : st.mounts.lookup (pathJoin ws p.2.default) with
      | some w =>
        unfold mountsInsert at h
        rw [hm] at h
        cases h
        refine ⟨pathJoin ws p.2.default, w, "", hm, ?_, Or.inl rfl⟩
        dsimp only
        rw [str_append_empty, hm]
        exact rfl
      | none =>
        unfold mountsInsert at h
        rw [hm] at h
        have hlk : (st.mounts ++ [(pathJoin ws p.2.default,
            "/mlcube_io" ++ toString st.mounts.length ++ "/" ++
              (pathSplit (pathJoin ws p.2.default)).2)]).lookup
            (pathJoin ws p.2.default) = some ("/mlcube_io" ++
              toString st.mounts.length ++ "/" ++
              (pathSplit (pathJoin ws p.2.default)).2) := by
          rw [lookup_append_right _ hm, lookup_cons_eq, if_pos (beq_self_eq_true _)]
        rw [hlk] at h
        cases h
        refine ⟨pathJoin ws p.2.default, _, "", hlk, ?_,
          Or.inr ⟨hm, rfl, ⟨(pathSplit (pathJoin ws p.2.default)).2, rfl⟩⟩⟩
        dsimp only
        rw [str_append_empty]
        exact rfl
    | file =>
      dsimp only at h
      cases hm : st.mounts.lookup (pathSplit (pathJoin ws p.2.default)).1 with
      | some w =>
        unfold mountsInsert at h
        rw [hm] at h
        cases h
        refine ⟨(pathSplit (pathJoin ws p.2.default)).1, w,
          "/" ++ (pathSplit (pathJoin ws p.2.default)).2, hm, ?_, Or.inl rfl⟩
        dsimp only
        rw [str_append_assoc, hm]
        exact rfl
      | none =>
        unfold mountsInsert at h
        rw [hm] at h
        have hlk : (st.mounts ++ [((pathSplit (pathJoin ws p.2.default)).1,
            "/mlcube_io" ++ toString st.mounts.length ++ "/" ++
              (pathSplit (pathJoin ws p.2.default)).1)]).lookup
            (pathSplit (pathJoin ws p.2.default)).1 = some ("/mlcube_io" ++
              toString st.mounts.length ++ "/" ++
              (pathSplit (pathJoin ws p.2.default)).1) := by
          rw [lookup_append_right _ hm, lookup_cons_eq, if_pos (beq_self_eq_true _)]
        rw [hlk] at h
        cases h
        refine ⟨(pathSplit (pathJoin ws p.2.default)).1, _,
          "/" ++ (pathSplit (pathJoin ws p.2.default)).2, hlk, ?_,
          Or.inr ⟨hm, rfl, ⟨(pathSplit (pathJoin ws p.2.default)).1, rfl⟩⟩⟩
        dsimp only
        rw [str_append_assoc]
        exact rfl

/-- Error-monad fold induction: a property preserved by every successful
`processParam` step holds after a successful fold. -/
theorem foldlM_param_ind (P : GenState → Prop) (ws task : String)
    (iot : IOType)
    (hstep : ∀ st st' p, P st →
        processParam ws task iot st p = Except.ok st' → P st') :
    ∀ (l : List (String × ParamDef)) (st st' : GenState),
      P st → l.foldlM (processParam ws task iot) st = Except.ok st' → P st'
  | [], st, st', hP, h => by
      rw [List.foldlM_nil] at h
      cases h
      exact hP
  | p :: rest, st, st', hP, h => by
      rw [List.foldlM_cons] at h
      cases hf : processParam ws task iot st p with
      | error e =>
        rw [hf] at h
        cases h
      | ok st1 =>
        rw [hf] at h
        exact foldlM_param_ind P ws task iot hstep rest st1 st'
          (hstep st st1 p hP hf) h

/-- A successful fold appends exactly one `--{name}={value}` argument per
parameter, in list order. -/
theorem foldlM_args_shape (ws task : String) (iot : IOType) :
    ∀ (l : List (String × ParamDef)) (st st' : GenState),
      l.foldlM (processParam ws task iot) st = Except.ok st' →
      ∃ vals : List String, vals.length = l.length ∧
        st'.args = st.args ++ List.zipWith
          (fun nm v => "--" ++ nm ++ "=" ++ v) (l.map Prod.fst) vals
  | [], st, st', h => by
      rw [List.foldlM_nil] at h
      cases h
      exact ⟨[], rfl, by simp⟩
  | p :: rest, st, st', h => by
      rw [List.foldlM_cons] at h
      cases hf : processParam ws task iot st p with
      | error e =>
        rw [hf] at h
        cases h
      | ok st1 =>
        rw [hf] at h
        obtain ⟨vals, hlen, hargs⟩ := foldlM_args_shape ws task iot rest st1 st' h
        obtain ⟨hp, mv, suf, -, hargs1, -⟩ :=
          processParam_ok_shape ws task iot st st1 p hf
        refine ⟨(mv ++ suf) :: vals, by simp [hlen], ?_⟩
        rw [hargs, hargs1, List.append_assoc]
        simp only [List.map_cons, List.zipWith_cons_cons]
        rw [str_append_assoc, List.singleton_append]

theorem generateGroup_eq (ws task : String) (iot : IOType)
    (params : List (String × ParamDef)) (st : GenState) :
    generateGroup ws task iot params st =
      params.foldlM (processParam ws task iot) st := by
  unfold generateGroup
  rw [if_neg (by simp [ioTypeIsValid])]

/-- One `_generate` step preserves the C1 invariant: mount keys are
pairwise distinct, each table entry carries the container prefix of its
own slot, and every argument besides the task name embeds a container
path bound in the current mount table. -/
theorem genInv_step (ws task : String) (iot : IOType)
    (st st' : GenState) (p : String × ParamDef)
    (hP : (st.mounts.map Prod.fst).Nodup ∧ slottedFrom 0 st.mounts ∧
      ∀ arg ∈ st.args, arg = task ∨ ∃ nm k v suf,
        st.mounts.lookup k = some v ∧ arg = "--" ++ nm ++ "=" ++ v ++ suf)
    (h : processParam ws task iot st p = Except.ok st') :
    (st'.mounts.map Prod.fst).Nodup ∧ slottedFrom 0 st'.mounts ∧
      ∀ arg ∈ st'.args, arg = task ∨ ∃ nm k v suf,
        st'.mounts.lookup k = some v ∧ arg = "--" ++ nm ++ "=" ++ v ++ suf := by
  obtain ⟨hnd, hsl, hargs⟩ := hP
  obtain ⟨hp, mv, suf, hlk, hargs1, hrel⟩ :=
    processParam_ok_shape ws task iot st st' p h
  have hmono : ∀ k v, st.mounts.lookup k = some v →
      st'.mounts.lookup k = some v := by
    rcases hrel with heq | ⟨hnone, heq, -⟩
    · rw [heq]; exact fun k v hv => hv
    · rw [heq]; exact fun k v hv => lookup_append_left _ hv
  refine ⟨?_, ?_, ?_⟩
  · rcases hrel with heq | ⟨hnone, heq, -⟩
    · rw [heq]; exact hnd
    · rw [heq]; exact keys_nodup_append hnone hnd
  · rcases hrel with heq | ⟨hnone, heq, ⟨r, hr⟩⟩
    · rw [heq]; exact hsl
    · rw [heq, hr]
      have hap := slottedFrom_append hp r 0 st.mounts hsl
      rw [Nat.zero_add] at hap
      exact hap
  · rw [hargs1]
    intro arg harg
    rcases List.mem_append.mp harg with harg | harg
    · rcases hargs arg harg with he | ⟨nm, k, v, sf, hv, he⟩
      · exact Or.inl he
      · exact Or.inr ⟨nm, k, v, sf, hmono k v hv, he⟩
    · rcases harg with _ | ⟨_, harg⟩
      · exact Or.inr ⟨p.1, hp, mv, suf, hlk, rfl⟩
      · cases harg

/-! ## C1: mount table deduplication -/

/-- C1: on every successful run of the mount/argument generator, the
returned mount table has at most one entry per host path, the entry at
position `i` carries container prefix `/mlcube_io{i}/` (slot index =
table size at insertion time), and every generated argument other than
the leading task name embeds the container path that the final table
binds for some host path — so re-referencing a host path, also across the
inputs/outputs boundary, reuses the identical container path. -/
theorem c1_mount_dedup (fs : FS) (cube : MLCubeCfg) (task : String)
    (mounts : List (String × String)) (args : List String) (fs' : FS)
    (h : generate_mounts_and_args fs cube task = Except.ok (mounts, args, fs')) :
    (mounts.map Prod.fst).Nodup ∧ slottedFrom 0 mounts ∧
    ∀ arg ∈ args, arg = task ∨ ∃ nm k v suf,
      mounts.lookup k = some v ∧ arg = "--" ++ nm ++ "=" ++ v ++ suf := by
  unfold generate_mounts_and_args at h
  cases hl : cube.tasks.lookup task with
  | none => rw [hl] at h; cases h
  | some tdef =>
    rw [hl] at h
    dsimp only at h
    simp only [generateGroup_eq] at h
    cases hg1 : tdef.parameters.inputs.foldlM
        (processParam cube.runtime.workspace task IOType.input)
        { fs := fs, mounts := [], args := [task] } with
    | error e => rw [hg1] at h; cases h
    | ok st1 =>
      rw [hg1] at h
      dsimp only at h
      cases hg2 : tdef.parameters.outputs.foldlM
          (processParam cube.runtime.workspace task IOType.output) st1 with
      | error e => rw [hg2] at h; cases h
      | ok st2 =>
        rw [hg2] at h
        cases h
        have hP0 : (([] : List (String × String)).map Prod.fst).Nodup ∧
            slottedFrom 0 ([] : List (String × String)) ∧
            ∀ arg ∈ [task], arg = task ∨ ∃ nm k v suf,
              ([] : List (String × String)).lookup k = some v ∧
                arg = "--" ++ nm ++ "=" ++ v ++ suf := by
          refine ⟨by simp, trivial, ?_⟩
          intro arg harg
          rcases harg with _ | ⟨_, harg⟩
          · exact Or.inl rfl
          · cases harg
        have hP1 := foldlM_param_ind
          (fun st => (st.mounts.map Prod.fst).Nodup ∧
            slottedFrom 0 st.mounts ∧
            ∀ arg ∈ st.args, arg = task ∨ ∃ nm k v suf,
              st.mounts.lookup k = some v ∧
                arg = "--" ++ nm ++ "=" ++ v ++ suf)
          cube.runtime.workspace task IOType.input
          (fun st st' p hP hstep => genInv_step _ _ _ st st' p hP hstep)
          tdef.parameters.inputs _ st1 hP0 hg1
        exact foldlM_param_ind _ cube.runtime.workspace task IOType.output
          (fun st st' p hP hstep => genInv_step _ _ _ st st' p hP hstep)
          tdef.parameters.outputs st1 st2 hP1 hg2

/-- Witness for C1 at `cubeW`: two directory inputs and one file output
all resolving to host path `/w/d` share the single slot-0 mount. -/
theorem c1_mount_dedup_witness :
    generate_mounts_and_args [] cubeW "t" = Except.ok
      ([("/w/d", "/mlcube_io0/d")],
       ["t", "--i=/mlcube_io0/d", "--j=/mlcube_io0/d",
        "--o=/mlcube_io0/d/out.txt"],
       [("/w/d", FSNode.dir 0)]) ∧
    (([("/w/d", "/mlcube_io0/d")].map Prod.fst).Nodup ∧
      slottedFrom 0 [("/w/d", "/mlcube_io0/d")] ∧
      ∀ arg ∈ ["t", "--i=/mlcube_io0/d", "--j=/mlcube_io0/d",
          "--o=/mlcube_io0/d/out.txt"],
        arg = "t" ∨ ∃ nm k v suf,
          [("/w/d", "/mlcube_io0/d")].lookup k = some v ∧
            arg = "--" ++ nm ++ "=" ++ v ++ suf) :=
  ⟨by decide, c1_mount_dedup [] cubeW "t" [("/w/d", "/mlcube_io0/d")]
    ["t", "--i=/mlcube_io0/d", "--j=/mlcube_io0/d",
     "--o=/mlcube_io0/d/out.txt"] [("/w/d", FSNode.dir 0)] (by decide)⟩

/-! ## C2: argument list order -/

/-- C2: on every successful run, the argument list is the task name
followed by exactly one `--name=value` entry per declared parameter, all
inputs strictly before all outputs, each group in declaration order. -/
theorem c2_argument_list_order (fs : FS) (cube : MLCubeCfg) (task : String)
    (tdef : TaskDef) (mounts : List (String × String)) (args : List String)
    (fs' : FS)
    (hl : cube.tasks.lookup task = some tdef)
    (h : generate_mounts_and_args fs cube task = Except.ok (mounts, args, fs')) :
    ∃ vals : List String,
      vals.length =
        tdef.parameters.inputs.length + tdef.parameters.outputs.length ∧
      args = task :: List.zipWith (fun nm v => "--" ++ nm ++ "=" ++ v)
        (tdef.parameters.inputs.map Prod.fst ++
          tdef.parameters.outputs.map Prod.fst) vals := by
  unfold generate_mounts_and_args at h
  rw [hl] at h
  dsimp only at h
  simp only [generateGroup_eq] at h
  cases hg1 : tdef.parameters.inputs.foldlM
      (processParam cube.runtime.workspace task IOType.input)
      { fs := fs, mounts := [], args := [task] } with
  | error e => rw [hg1] at h; cases h
  | ok st1 =>
    rw [hg1] at h
    dsimp only at h
    cases hg2 : tdef.parameters.outputs.foldlM
        (processParam cube.runtime.workspace task IOType.output) st1 with
    | error e => rw [hg2] at h; cases h
    | ok st2 =>
      rw [hg2] at h
      cases h
      obtain ⟨vin, hlin, hain⟩ := foldlM_args_shape cube.runtime.workspace
        task IOType.input tdef.parameters.inputs _ st1 hg1
      obtain ⟨vout, hlout, haout⟩ := foldlM_args_shape cube.runtime.workspace
        task IOType.output tdef.parameters.outputs st1 st2 hg2
      refine ⟨vin ++ vout, by simp [hlin, hlout], ?_⟩
      rw [haout, hain,
        List.zipWith_append _ _ _ _ _ (by simp [hlin]),
        List.append_assoc]
      rfl

/-- Witness for C2 at `cubeW`: the generated list is the task name, then
the two inputs, then the output, in declaration order. -/
theorem c2_argument_list_order_witness :
    ∃ vals : List String,
      vals.length =
        cubeWTask.parameters.inputs.length +
          cubeWTask.parameters.outputs.length ∧
      ["t", "--i=/mlcube_io0/d", "--j=/mlcube_io0/d",
       "--o=/mlcube_io0/d/out.txt"] =
        "t" :: List.zipWith (fun nm v => "--" ++ nm ++ "=" ++ v)
          (cubeWTask.parameters.inputs.map Prod.fst ++
            cubeWTask.parameters.outputs.map Prod.fst) vals :=
  c2_argument_list_order [] cubeW "t" cubeWTask [("/w/d", "/mlcube_io0/d")]
    ["t", "--i=/mlcube_io0/d", "--j=/mlcube_io0/d",
     "--o=/mlcube_io0/d/out.txt"] [("/w/d", FSNode.dir 0)]
    (by decide) (by decide)

/-! ## C3: container path formats -/

/-- C3: a first-registered DIRECTORY parameter mounts the host directory
at `/mlcube_io{slot}/{basename}` with argument `--name={mount}`; a
first-registered FILE parameter mounts its containing directory at
`/mlcube_io{slot}/{full directory string}` with argument
`--name={mount}/{file}`; concretely, in workspace `/ws`, a first
DIRECTORY parameter with default `data/train` yields `/mlcube_io0/train`
and a following FILE parameter `cfg` with default `config/params.yaml`
yields mount `/mlcube_io1//ws/config` and argument
`--cfg=/mlcube_io1//ws/config/params.yaml`. -/
theorem c3_path_formats :
    (∀ (ws task : String) (iot : IOType) (st : GenState)
        (p : String × ParamDef),
      resolveParamType st.fs task p.1 iot p.2.type (pathJoin ws p.2.default) =
        Except.ok ParameterType.directory →
      st.mounts.lookup (pathJoin ws p.2.default) = none →
      processParam ws task iot st p = Except.ok
        { fs := fsMakedirs (pathJoin ws p.2.default) st.fs,
          mounts := st.mounts ++ [(pathJoin ws p.2.default,
            "/mlcube_io" ++ toString st.mounts.length ++ "/" ++
              (pathSplit (pathJoin ws p.2.default)).2)],
          args := st.args ++ ["--" ++ p.1 ++ "=" ++
            ("/mlcube_io" ++ toString st.mounts.length ++ "/" ++
              (pathSplit (pathJoin ws p.2.default)).2)] }) ∧
    (∀ (ws task : String) (iot : IOType) (st : GenState)
        (p : String × ParamDef),
      resolveParamType st.fs task p.1 iot p.2.type (pathJoin ws p.2.default) =
        Except.ok ParameterType.file →
      st.mounts.lookup (pathSplit (pathJoin ws p.2.default)).1 = none →
      processParam ws task iot st p = Except.ok
        { fs := fsMakedirs (pathSplit (pathJoin ws p.2.default)).1 st.fs,
          mounts := st.mounts ++ [((pathSplit (pathJoin ws p.2.default)).1,
            "/mlcube_io" ++ toString st.mounts.length ++ "/" ++
              (pathSplit (pathJoin ws p.2.default)).1)],
          args := st.args ++ ["--" ++ p.1 ++ "=" ++
            ("/mlcube_io" ++ toString st.mounts.length ++ "/" ++
              (pathSplit (pathJoin ws p.2.default)).1) ++ "/" ++
            (pathSplit (pathJoin ws p.2.default)).2] }) ∧
    generate_mounts_and_args [] cubeRoundTrip "task" = Except.ok
      ([("/ws/data/train", "/mlcube_io0/train"),
        ("/ws/config", "/mlcube_io1//ws/config")],
       ["task", "--input_data=/mlcube_io0/train",
        "--cfg=/mlcube_io1//ws/config/params.yaml"],
       [("/ws/config", FSNode.dir 0), ("/ws/data/train", FSNode.dir 0)]) := by
  refine ⟨?_, ?_, by decide⟩
  · intro ws task iot st p hres hnone
    unfold processParam
    rw [if_neg (by simp [parameterTypeIsValid])]
    dsimp only
    rw [hres]
    dsimp only
    unfold mountsInsert
    rw [hnone]
    have hlk : (st.mounts ++ [(pathJoin ws p.2.default,
        "/mlcube_io" ++ toString st.mounts.length ++ "/" ++
          (pathSplit (pathJoin ws p.2.default)).2)]).lookup
        (pathJoin ws p.2.default) = some ("/mlcube_io" ++
          toString st.mounts.length ++ "/" ++
          (pathSplit (pathJoin ws p.2.default)).2) := by
      rw [lookup_append_right _ hnone, lookup_cons_eq,
        if_pos (beq_self_eq_true _)]
    rw [hlk]
    exact rfl
  · intro ws task iot st p hres hnone
    unfold processParam
    rw [if_neg (by simp [parameterTypeIsValid])]
    dsimp only
    rw [hres]
    dsimp only
    unfold mountsInsert
    rw [hnone]
    have hlk : (st.mounts ++ [((pathSplit (pathJoin ws p.2.default)).1,
        "/mlcube_io" ++ toString st.mounts.length ++ "/" ++
          (pathSplit (pathJoin ws p.2.default)).1)]).lookup
        (pathSplit (pathJoin ws p.2.default)).1 = some ("/mlcube_io" ++
          toString st.mounts.length ++ "/" ++
          (pathSplit (pathJoin ws p.2.default)).1) := by
      rw [lookup_append_right _ hnone, lookup_cons_eq,
        if_pos (beq_self_eq_true _)]
    rw [hlk]
    exact rfl

/-- Witness for C3: the DIRECTORY branch applied to the spec's round-trip
example (`data/train` in `/ws`, first parameter processed). -/
theorem c3_path_formats_witness :
    resolveParamType ([] : FS) "task" "input_data" IOType.input
      ParameterType.directory (pathJoin "/ws" "data/train") =
        Except.ok ParameterType.directory ∧
    processParam "/ws" "task" IOType.input
      ⟨[], [], ["task"]⟩
      ("input_data", ⟨ParameterType.directory, "data/train"⟩) =
      Except.ok ⟨[("/ws/data/train", FSNode.dir 0)],
        [("/ws/data/train", "/mlcube_io0/train")],
        ["task", "--input_data=/mlcube_io0/train"]⟩ :=
  ⟨by decide,
    c3_path_formats.1 "/ws" "task" IOType.input
      ⟨[], [], ["task"]⟩
      ("input_data", ⟨ParameterType.directory, "data/train"⟩)
      (by decide) (by decide)⟩

/-! ## C5: sync never overwrites an existing target artifact -/

/-- C5: whenever anything already exists at a path before workspace
synchronization, that path's content is unchanged by the whole sync pass,
and no copy performed by the pass has that path as its destination — in
particular an input parameter whose computed target path is occupied is
skipped. -/
theorem c5_no_overwrite (cwd : String) (fs : FS) (cube : MLCubeCfg)
    (task p : String) (h : (fs.lookup p).isSome = true) :
    (sync_workspace cwd fs cube task).fs.lookup p = fs.lookup p ∧
    ∀ a ∈ (sync_workspace cwd fs cube task).actions, copyDst a ≠ some p := by
  refine ⟨(sync_workspace_frame cwd fs cube task).1 p h, ?_⟩
  intro a ha hq
  have hn := (sync_workspace_frame cwd fs cube task).2 a ha p hq
  rw [hn] at h
  cases h

/-- Witness for C5: a target artifact `/tw/d.txt` that already exists is
left untouched and is the destination of no copy. -/
theorem c5_no_overwrite_witness :
    (fsC5.lookup "/tw/d.txt").isSome = true ∧
    ((sync_workspace "/" fsC5 cubeC5 "t").fs.lookup "/tw/d.txt" =
        fsC5.lookup "/tw/d.txt" ∧
      ∀ a ∈ (sync_workspace "/" fsC5 cubeC5 "t").actions,
        copyDst a ≠ some "/tw/d.txt") :=
  ⟨by decide, c5_no_overwrite "/" fsC5 cubeC5 "t" "/tw/d.txt" (by decide)⟩

/-! ## C4: declared task outputs are never pre-seeded by sync -/

/-- One input-loop step preserves the invariant that every recorded copy
destination was checked not to be a declared task output. -/
theorem syncInput_no_output_copy (sw tw : String) (cube : MLCubeCfg)
    (st : SyncState) (p : String × ParamDef)
    (h : ∀ a ∈ st.actions, ∀ q, copyDst a = some q →
        isTaskOutput cube tw q = Except.ok false) :
    ∀ a ∈ (syncInput sw tw cube st p).actions, ∀ q, copyDst a = some q →
        isTaskOutput cube tw q = Except.ok false := by
  rcases syncInput_cases sw tw cube st p with hA | ⟨e, hB⟩ | ⟨d, n, -, -, hto, -, hC⟩
  · rw [hA]; exact h
  · rw [hB]; exact h
  · rcases hC with hC | hC
    · rw [hC]
      intro a ha q hq
      rcases List.mem_append.mp ha with ha | ha
      · exact h a ha q hq
      · rcases ha with _ | ⟨_, ha⟩
        · cases hq
        · rcases ha with _ | ⟨_, ha⟩
          · cases hq
            exact hto
          · cases ha
    · rw [hC]
      intro a ha q hq
      rcases List.mem_append.mp ha with ha | ha
      · exact h a ha q hq
      · rcases ha with _ | ⟨_, ha⟩
        · cases hq
          exact hto
        · cases ha

theorem syncFold_no_output_copy (sw tw : String) (cube : MLCubeCfg) :
    ∀ (l : List (String × ParamDef)) (st : SyncState),
      (∀ a ∈ st.actions, ∀ q, copyDst a = some q →
          isTaskOutput cube tw q = Except.ok false) →
      ∀ a ∈ (l.foldl (syncInput sw tw cube) st).actions, ∀ q,
          copyDst a = some q → isTaskOutput cube tw q = Except.ok false
  | [], _, h => h
  | p :: rest, st, h => by
      rw [List.foldl_cons]
      exact syncFold_no_output_copy sw tw cube rest _
        (syncInput_no_output_copy sw tw cube st p h)

/-- Every copy destination recorded by `sync_workspace` was checked, at
copy time, not to be the declared output path of any task. -/
theorem sync_no_output_copy (cwd : String) (fs : FS) (cube : MLCubeCfg)
    (task : String) :
    ∀ a ∈ (sync_workspace cwd fs cube task).actions, ∀ q,
      copyDst a = some q →
      isTaskOutput cube (absPath cwd (strTrim cube.runtime.workspace)) q =
        Except.ok false := by
  unfold sync_workspace
  cases hs : storageNotSupported cube.runtime.workspace with
  | error e =>
    intro a ha
    simp at ha
  | ok w =>
    have hw : w = strTrim cube.runtime.workspace := storageNotSupported_ok hs
    subst hw
    dsimp only
    have hac : ∀ a ∈ [SyncAction.mkdirs
        (absPath cwd (strTrim cube.runtime.workspace))], ∀ q,
        copyDst a = some q →
        isTaskOutput cube (absPath cwd (strTrim cube.runtime.workspace)) q =
          Except.ok false := by
      intro a ha q hq
      rcases ha with _ | ⟨_, ha⟩
      · cases hq
      · cases ha
    by_cases h1 : (!fsExists
        (fsMakedirs (absPath cwd (strTrim cube.runtime.workspace)) fs)
        (absPath cwd (pathJoin cube.runtime.root "workspace"))) = true
    · rw [if_pos h1]; exact hac
    rw [if_neg h1]
    by_cases h2 : (absPath cwd (strTrim cube.runtime.workspace) ==
        absPath cwd (pathJoin cube.runtime.root "workspace")) = true
    · rw [if_pos h2]; exact hac
    rw [if_neg h2]
    cases hl : cube.tasks.lookup task with
    | none => exact hac
    | some tdef =>
      dsimp only
      exact syncFold_no_output_copy _ _ cube _ _ hac

/-- C4: an input whose target-workspace path exactly equals (by path
string) the declared output path of any parameter of any task — that is,
a path at which `_is_task_output` answers true — is never the destination
of a copy during workspace synchronization, regardless of the filesystem
state. -/
theorem c4_task_output_not_copied (cwd : String) (fs : FS) (cube : MLCubeCfg)
    (task p : String)
    (h : isTaskOutput cube (absPath cwd (strTrim cube.runtime.workspace)) p =
        Except.ok true) :
    ∀ a ∈ (sync_workspace cwd fs cube task).actions, copyDst a ≠ some p := by
  intro a ha hq
  have h2 := sync_no_output_copy cwd fs cube task a ha p hq
  rw [h] at h2
  cases h2

/-- Witness for C4: `/tw/model.bin` is a declared output of task `t` of
`cubeC4`; the corresponding input exists in the source workspace and is
absent from the target workspace, yet no copy targets it. -/
theorem c4_task_output_not_copied_witness :
    isTaskOutput cubeC4 (absPath "/" (strTrim cubeC4.runtime.workspace))
      "/tw/model.bin" = Except.ok true ∧
    fsIsFile fsC4 "/cube/workspace/model.bin" = true ∧
    fsC4.lookup "/tw/model.bin" = none ∧
    ∀ a ∈ (sync_workspace "/" fsC4 cubeC4 "t").actions,
      copyDst a ≠ some "/tw/model.bin" :=
  ⟨by decide, by decide, by decide,
    c4_task_output_not_copied "/" fsC4 cubeC4 "t" "/tw/model.bin" (by decide)⟩

/-! ## C7: behaviour on storage-scheme paths -/

/-- C7 counterexample: in `cubeC7` the second input's artifact path
carries the `storage:` prefix; synchronization does raise
`NotImplementedError`, but only after the first input has already been
copied — refuting "no artifact is copied and no filesystem change is made
before the failure is raised". -/
theorem c7_counterexample :
    (sync_workspace "/" fsC7 cubeC7 "t").error =
      some ShellError.notImplementedError ∧
    SyncAction.copyFile "/cube/workspace/a.txt" "/tw/a.txt" ∈
      (sync_workspace "/" fsC7 cubeC7 "t").actions := by
  constructor
  · decide
  · decide

/-- C7 (amended): if the target workspace path itself carries the
`storage:` prefix, synchronization fails with `NotImplementedError`
immediately, with no filesystem effect; a `storage:` prefix on an
artifact path, however, is only detected lazily while that artifact is
processed, so the failure can come after earlier inputs were already
copied. -/
theorem c7_storage_failure_lazy (cwd : String) (fs : FS) (cube : MLCubeCfg)
    (task : String)
    (h : strStartsWith (strTrim cube.runtime.workspace) "storage:" = true) :
    sync_workspace cwd fs cube task =
      { fs := fs, actions := [], targetCfg := cube,
        error := some ShellError.notImplementedError } ∧
    ((sync_workspace "/" fsC7 cubeC7 "t").error =
        some ShellError.notImplementedError ∧
      SyncAction.copyFile "/cube/workspace/a.txt" "/tw/a.txt" ∈
        (sync_workspace "/" fsC7 cubeC7 "t").actions) := by
  refine ⟨?_, by decide, by decide⟩
  unfold sync_workspace
  rw [storageNotSupported_error h]

/-- Witness for C7 (amended): a cube whose configured workspace is
`storage:abc` fails immediately with no actions. -/
theorem c7_storage_failure_lazy_witness :
    strStartsWith (strTrim cubeStorage.runtime.workspace) "storage:" = true ∧
    sync_workspace "/" [] cubeStorage "t" =
      { fs := [], actions := [], targetCfg := cubeStorage,
        error := some ShellError.notImplementedError } :=
  ⟨by decide, (c7_storage_failure_lazy "/" [] cubeStorage "t" (by decide)).1⟩

/-! ## C8: missing task name -/

/-- C8: when no early-exit path applies (the workspace path has no
storage prefix, the source workspace exists once the target workspace has
been created, and target and source workspaces are distinct), invoking
synchronization with an undeclared task name fails with the lookup error
`ValueError("Task does not exist: ...")`. -/
theorem c8_missing_task (cwd : String) (fs : FS) (cube : MLCubeCfg)
    (task : String)
    (h1 : strStartsWith (strTrim cube.runtime.workspace) "storage:" = false)
    (h2 : fsExists (fsMakedirs (absPath cwd (strTrim cube.runtime.workspace)) fs)
        (absPath cwd (pathJoin cube.runtime.root "workspace")) = true)
    (h3 : absPath cwd (strTrim cube.runtime.workspace) ≠
        absPath cwd (pathJoin cube.runtime.root "workspace"))
    (h4 : cube.tasks.lookup task = none) :
    (sync_workspace cwd fs cube task).error =
      some (ShellError.valueError ("Task does not exist: " ++ task)) := by
  unfold sync_workspace
  have hs : storageNotSupported cube.runtime.workspace =
      Except.ok (strTrim cube.runtime.workspace) := by
    unfold storageNotSupported
    rw [if_neg (by simp [h1])]
  rw [hs]
  dsimp only
  rw [if_neg (by simp [h2]), if_neg (by simp [h3]), h4]

/-- Witness for C8: `cubeC8` declares only task `a`; synchronizing task
`b` raises the lookup error. -/
theorem c8_missing_task_witness :
    strStartsWith (strTrim cubeC8.runtime.workspace) "storage:" = false ∧
    (sync_workspace "/" [("/cube/workspace", FSNode.dir 0)] cubeC8 "b").error =
      some (ShellError.valueError ("Task does not exist: " ++ "b")) :=
  ⟨by decide, c8_missing_task "/" [("/cube/workspace", FSNode.dir 0)] cubeC8 "b"
    (by decide) (by decide) (by decide) (by decide)⟩

/-! ## C10: the CLI-args formatter -/

/-- C10: the CLI-args Formatter is a pure total function rendering each
pair as `{parent_flag }{key}{separator}{value}`, space-joined in mapping
order; the empty mapping yields the empty string, and the mapping
`{a:1, b:2}` with separator `=` and no parent flag yields `"a=1 b=2"`. -/
theorem c10_cli_formatter (args : List (String × String)) (sep : String)
    (parentArg : Option String) :
    to_cli_args args sep parentArg = cliArgsSpec args sep parentArg ∧
    to_cli_args [] sep parentArg = "" ∧
    to_cli_args [("a", "1"), ("b", "2")] "=" none = "a=1 b=2" := by
  refine ⟨?_, rfl, rfl⟩
  simp [to_cli_args, cliArgsSpec]

/-! ## C6: the parameter type resolver -/

theorem fsIsFile_not_isDir {fs : FS} {p : String}
    (h : fsIsFile fs p = true) : fsIsDir fs p = false := by
  unfold fsIsFile at h
  unfold fsIsDir
  cases hl : fs.lookup p with
  | none => simp
  | some n => cases n <;> simp [hl] at h ⊢

/-- C6: on a parameter with declared type UNKNOWN, the resolver fails with
a `ConfigurationError` for OUTPUT direction regardless of the filesystem;
for INPUT direction it yields DIRECTORY when a directory exists at the
host path, FILE when a regular file exists there, and fails with a
`ConfigurationError` when neither exists. -/
theorem c6_unknown_type_resolution (fs : FS) (task pname hostPath : String) :
    (∃ m, resolveParamType fs task pname IOType.output ParameterType.unknown
        hostPath = Except.error (ShellError.configurationError m)) ∧
    (fsIsDir fs hostPath = true →
      resolveParamType fs task pname IOType.input ParameterType.unknown
        hostPath = Except.ok ParameterType.directory) ∧
    (fsIsFile fs hostPath = true →
      resolveParamType fs task pname IOType.input ParameterType.unknown
        hostPath = Except.ok ParameterType.file) ∧
    (fsIsDir fs hostPath = false → fsIsFile fs hostPath = false →
      ∃ m, resolveParamType fs task pname IOType.input ParameterType.unknown
        hostPath = Except.error (ShellError.configurationError m)) := by
  refine ⟨⟨_, rfl⟩, ?_, ?_, ?_⟩
  · intro hdir
    simp [resolveParamType, hdir]
  · intro hfile
    simp [resolveParamType, fsIsFile_not_isDir hfile, hfile]
  · intro hdir hfile
    refine ⟨"Invalid task: task=" ++ task ++ ", param=" ++ pname ++
      ", type=unknown. Type is unknown and unable to identify it (" ++
      hostPath ++ ").", ?_⟩
    simp [resolveParamType, hdir, hfile]

/-- Witness for C6 at a concrete filesystem: a directory at the host path
resolves an UNKNOWN input parameter to DIRECTORY. -/
theorem c6_unknown_type_resolution_witness :
    fsIsDir [("/d", FSNode.dir 0)] "/d" = true ∧
    resolveParamType [("/d", FSNode.dir 0)] "t" "p" IOType.input
      ParameterType.unknown "/d" = Except.ok ParameterType.directory := by
  have hdir : fsIsDir [("/d", FSNode.dir 0)] "/d" = true := by
    simp [fsIsDir, List.lookup]
  exact ⟨hdir, (c6_unknown_type_resolution [("/d", FSNode.dir 0)] "t" "p" "/d").2.1 hdir⟩

/-! ## C9: sync_workspace does not mutate the caller's configuration -/

theorem syncInput_targetCfg (sw tw : String) (cube : MLCubeCfg)
    (st : SyncState) (p : String × ParamDef) :
    (syncInput sw tw cube st p).targetCfg = st.targetCfg := by
  unfold syncInput
  repeat' split
  all_goals simp [apply_ite SyncState.targetCfg]
  all_goals intro h1 h2
  all_goals (repeat' split)
  all_goals rfl

theorem syncFold_targetCfg (sw tw : String) (cube : MLCubeCfg) :
    ∀ (l : List (String × ParamDef)) (st : SyncState),
      (l.foldl (syncInput sw tw cube) st).targetCfg = st.targetCfg := by
  intro l
  induction l with
  | nil => intro st; rfl
  | cons hd tl ih =>
    intro st
    rw [List.foldl_cons, ih, syncInput_targetCfg]

/-- C9: `sync_workspace` never mutates the configuration object it
receives; the caller-visible configuration after the call equals the one
passed in (only the internal deep copy has its workspace fields
redirected). -/
theorem c9_no_config_mutation (cwd : String) (fs : FS) (cube : MLCubeCfg)
    (task : String) :
    (sync_workspace cwd fs cube task).targetCfg = cube := by
  unfold sync_workspace
  repeat' split
  all_goals simp [apply_ite SyncState.targetCfg, syncFold_targetCfg]

end MLCube
